import Mathlib

/-!
Verification of the Netlify serverless function `netlify/functions/passenger.js`,
an adapter that proxies passenger-record loads and saves between a web form and
an Odoo instance over JSON-RPC.

The JavaScript is shallowly embedded: JSON/JS values become the inductive `JVal`
(with an explicit `undef` for JavaScript's `undefined`), the upstream Odoo store
becomes a deterministic oracle `RpcEnv` mapping each issued RPC call to a result
or a thrown error, and the handler becomes a pure function returning the HTTP
response together with the trace of RPC calls it issued.  A thrown exception
outside the handler's try/catch (destructuring a `null` payload) is modelled by
the outer `Except`.  Platform primitives not part of the repository
(`JSON.parse`, `String()` coercion, `trim`, `toLowerCase`) are modelled
explicitly; `JSON.parse` is a parameter constrained only where its standard
behaviour is needed.
-/

/-- A JavaScript/JSON value.  Numbers are modelled as integers (the ids and
field values this adapter manipulates are JSON integers and strings). -/
inductive JVal where
  | undef : JVal
  | null : JVal
  | bool : Bool → JVal
  | num : Int → JVal
  | str : String → JVal
  | arr : List JVal → JVal
  | obj : List (String × JVal) → JVal
deriving Repr

/-- JavaScript truthiness of a value (`undefined`, `null`, `false`, `0`, `""`
are falsy; arrays and objects are always truthy). -/
def truthy : JVal → Bool
  | .undef => false
  | .null => false
  | .bool b => b
  | .num n => n != 0
  | .str s => s ≠ ""
  | .arr _ => true
  | .obj _ => true

/-- Does a value behave as `null` for JavaScript's loose `v != null` test
(true exactly for `null` and `undefined`)? -/
def nullish : JVal → Bool
  | .null => true
  | .undef => true
  | _ => false

/-- Total member access for non-nullish receivers: property lookup on objects,
the `length` property of arrays and strings, `undefined` everywhere else. -/
def jsGetT (v : JVal) (k : String) : JVal :=
  match v with
  | .obj kvs => ((kvs.find? (fun kv => kv.1 = k)).map (fun kv => kv.2)).getD JVal.undef
  | .arr xs => if k = "length" then .num xs.length else JVal.undef
  | .str s => if k = "length" then .num s.length else JVal.undef
  | _ => JVal.undef

/-- Member access as in JavaScript: reading a property of `null` or
`undefined` throws a `TypeError`. -/
def jsGet (v : JVal) (k : String) : Except String JVal :=
  match v with
  | .null => .error "TypeError: cannot read properties of null"
  | .undef => .error "TypeError: cannot read properties of undefined"
  | _ => .ok (jsGetT v k)

/-- Indexing `v[i]` for truthy receivers: array element, character of a
string, numeric-keyed property of an object, otherwise `undefined`. -/
def jsIndex (v : JVal) (i : Nat) : JVal :=
  match v with
  | .arr xs => (xs.get? i).getD JVal.undef
  | .str s =>
    match s.data.get? i with
    | some c => .str (String.mk [c])
    | none => JVal.undef
  | .obj kvs => ((kvs.find? (fun kv => kv.1 = toString i)).map (fun kv => kv.2)).getD JVal.undef
  | _ => JVal.undef

/-- JavaScript `a || b`. -/
def jsOr (a b : JVal) : JVal := if truthy a then a else b

/-- JavaScript `a && b`. -/
def jsAnd (a b : JVal) : JVal := if truthy a then b else a

/-- JavaScript strict equality `===` restricted to the values that occur here:
value equality on primitives; reference types compare unequal (the compared
references always come from distinct parses in this program). -/
def jsStrictEq : JVal → JVal → Bool
  | .undef, .undef => true
  | .null, .null => true
  | .bool a, .bool b => a == b
  | .num a, .num b => a == b
  | .str a, .str b => a == b
  | _, _ => false

mutual

/-- String coercion `String(v)`: arrays join their elements with commas,
`null`/`undefined` elements becoming empty; plain objects print as
`[object Object]`. -/
def jsToString : JVal → String
  | .undef => "undefined"
  | .null => "null"
  | .bool b => if b then "true" else "false"
  | .num n => toString n
  | .str s => s
  | .obj _ => "[object Object]"
  | .arr xs => String.intercalate "," (jsToStringElems xs)

/-- Elementwise coercion used by `Array.prototype.toString` (= `join(',')`). -/
def jsToStringElems : List JVal → List String
  | [] => []
  | .null :: rest => "" :: jsToStringElems rest
  | .undef :: rest => "" :: jsToStringElems rest
  | v :: rest => jsToString v :: jsToStringElems rest

end

/-- A character removed by JavaScript `String.prototype.trim` (the code points
relevant to this adapter's inputs). -/
def jsWs (c : Char) : Bool :=
  c = ' ' || c = '\t' || c = '\n' || c = '\r' ||
  c = (Char.ofNat 11) || c = (Char.ofNat 12) || c = (Char.ofNat 0xa0) || c = (Char.ofNat 0xfeff)

/-- Remove leading then trailing whitespace from a character list. -/
def trimChars (l : List Char) : List Char :=
  ((( l.dropWhile jsWs).reverse.dropWhile jsWs)).reverse

/-- Model of JavaScript `String.prototype.trim`. -/
def jsTrim (s : String) : String := String.mk (trimChars s.data)

/-- ASCII lowering of one character, as `toLowerCase` acts on the inputs this
adapter compares (its comparisons are against ASCII literals). -/
def lowerChar (c : Char) : Char :=
  if 'A' ≤ c ∧ c ≤ 'Z' then Char.ofNat (c.toNat + 32) else c

/-- Model of JavaScript `String.prototype.toLowerCase`. -/
def jsToLower (s : String) : String := String.mk (s.data.map lowerChar)

/-- The anchored regular expression `/^(\d{2})\/(\d{2})\/(\d{4})$/` from
`toOdooDate`: exactly two digits, a slash, two digits, a slash, four digits;
on a match it returns the three capture groups. -/
def matchDDMMYYYY (s : String) : Option (String × String × String) :=
  match s.data with
  | [d1, d2, s1, m1, m2, s2, y1, y2, y3, y4] =>
    if d1.isDigit && d2.isDigit && s1 = '/' && m1.isDigit && m2.isDigit && s2 = '/' &&
        y1.isDigit && y2.isDigit && y3.isDigit && y4.isDigit then
      some (String.mk [d1, d2], String.mk [m1, m2], String.mk [y1, y2, y3, y4])
    else none
  | _ => none

/-- `toOdooDate` from the source: falsy input gives `null`; otherwise the
input is coerced to a string and trimmed, and if it matches `dd/mm/yyyy`
exactly the result is `yyyy-mm-dd`, else `null`. -/
def toOdooDate (v : JVal) : JVal :=
  if !truthy v then .null
  else
    match matchDDMMYYYY (jsTrim (jsToString v)) with
    | none => .null
    | some (dd, mm, yyyy) => .str (yyyy ++ "-" ++ mm ++ "-" ++ dd)

/-- A date field's outbound value in a save patch:
`toOdooDate(p.field) || p.field` (pass already-ISO or malformed input through). -/
def dateConvertForSave (v : JVal) : JVal := jsOr (toOdooDate v) v

/-- `normalizeSex` from the source: falsy gives `null`; otherwise the trimmed,
lowercased string selects `MALE` / `FEMALE` / `RATHER_NOT_SAY`, and any other
value is returned coerced and trimmed. -/
def normalizeSex (v : JVal) : JVal :=
  if !truthy v then .null
  else
    let s := jsToLower (jsTrim (jsToString v))
    if s = "male" then .str "MALE"
    else if s = "female" then .str "FEMALE"
    else if s = "rather not say" || s = "rather_not_say" || s = "prefer not to say" then
      .str "RATHER_NOT_SAY"
    else .str (jsTrim (jsToString v))

/-- `normalizeMaritalStatus` from the source: same shape as `normalizeSex`
with `SINGLE` / `MARRIED` / `RATHER_NOT_SAY`. -/
def normalizeMaritalStatus (v : JVal) : JVal :=
  if !truthy v then .null
  else
    let s := jsToLower (jsTrim (jsToString v))
    if s = "single" then .str "SINGLE"
    else if s = "married" then .str "MARRIED"
    else if s = "rather not say" || s = "rather_not_say" || s = "prefer not to say" then
      .str "RATHER_NOT_SAY"
    else .str (jsTrim (jsToString v))

/-- `m2oToObj` from the load branch: a two-or-more element array decodes to
`{id, name}`, anything else to `null`. -/
def m2oToObj (field : JVal) : JVal :=
  match field with
  | .arr xs => if xs.length ≥ 2 then .obj [("id", jsIndex field 0), ("name", jsIndex field 1)] else .null
  | _ => .null

/-- The incoming Netlify event: HTTP method, headers (possibly absent —
accessed with optional chaining in the source) and an optional raw body. -/
structure Event where
  httpMethod : String
  headers : Option (List (String × String))
  body : Option String

/-- The process configuration read from the environment: each variable is
absent or a string (an empty string is treated as missing by the handler's
truthiness check). -/
structure Config where
  odooUrl : Option String
  odooDb : Option String
  odooUsername : Option String
  odooApiKey : Option String

/-- Is an environment variable set to a truthy (non-empty) string? -/
def envSet : Option String → Bool
  | some s => s ≠ ""
  | none => false

/-- All four Odoo environment variables are present and non-empty. -/
def configOk (cfg : Config) : Bool :=
  envSet cfg.odooUrl && envSet cfg.odooDb && envSet cfg.odooUsername && envSet cfg.odooApiKey

/-- The URL string used once the configuration check passed. -/
def cfgUrl (cfg : Config) : String := cfg.odooUrl.getD ""

/-- The database string used once the configuration check passed. -/
def cfgDb (cfg : Config) : String := cfg.odooDb.getD ""

/-- The username string used once the configuration check passed. -/
def cfgUser (cfg : Config) : String := cfg.odooUsername.getD ""

/-- The API-key string used once the configuration check passed. -/
def cfgKey (cfg : Config) : String := cfg.odooApiKey.getD ""

/-- A response body: either the raw empty string of the CORS-preflight reply,
or a JSON value that the source passes to `JSON.stringify`. -/
inductive RespBody where
  | raw : String → RespBody
  | json : JVal → RespBody

/-- An HTTP response as returned by the handler. -/
structure Response where
  statusCode : Nat
  headers : List (String × String)
  body : RespBody

/-- An RPC operation against the upstream Odoo store.  The source only ever
builds `authenticate`, `searchRead` and `write` payloads; `create` and
`unlink` are the further mutations Odoo's `execute_kw` offers, included here
so that their absence from every trace is a statement, not a tautology. -/
inductive RpcCall where
  | authenticate : (url db username apiKey : String) → RpcCall
  | searchRead : (url db : String) → (uid : JVal) → (apiKey modelName : String) →
      (domain : List (String × String × JVal)) → (fields : List String) → RpcCall
  | write : (url db : String) → (uid : JVal) → (apiKey modelName : String) →
      (recordId : JVal) → (vals : List (String × JVal)) → RpcCall
  | create : (url db : String) → (uid : JVal) → (apiKey modelName : String) →
      (vals : List (String × JVal)) → RpcCall
  | unlink : (url db : String) → (uid : JVal) → (apiKey modelName : String) →
      (ids : List JVal) → RpcCall

/-- Is a call a `create`? -/
def RpcCall.isCreate : RpcCall → Bool
  | .create _ _ _ _ _ _ => true
  | _ => false

/-- Is a call an `unlink` (Odoo's delete)? -/
def RpcCall.isUnlink : RpcCall → Bool
  | .unlink _ _ _ _ _ _ => true
  | _ => false

/-- The upstream store, as a deterministic oracle: each call either returns a
JSON result or throws (transport failure or JSON-RPC error envelope, both of
which `odooJsonRpc` raises as exceptions). -/
def RpcEnv : Type := RpcCall → Except String JVal

/-- The allowed CORS origins hard-coded in `buildCorsHeaders`. -/
def allowedOrigins : List String :=
  ["https://adventurebound.travel", "https://www.adventurebound.travel"]

/-- The request origin: `event?.headers?.origin || event?.headers?.Origin || ''`. -/
def eventOrigin (event : Event) : String :=
  match event.headers with
  | none => ""
  | some hs =>
    let a := ((hs.find? (fun kv => kv.1 = "origin")).map (fun kv => kv.2)).getD ""
    if a ≠ "" then a else ((hs.find? (fun kv => kv.1 = "Origin")).map (fun kv => kv.2)).getD ""

/-- `buildCorsHeaders` from the source: echo the request origin when it is on
the allow-list, otherwise fall back to the default origin. -/
def buildCorsHeaders (event : Event) : List (String × String) :=
  let origin := eventOrigin event
  let allowOrigin := if origin ∈ allowedOrigins then origin else "https://www.adventurebound.travel"
  [("Access-Control-Allow-Origin", allowOrigin),
   ("Access-Control-Allow-Headers", "Content-Type"),
   ("Access-Control-Allow-Methods", "POST, OPTIONS"),
   ("Content-Type", "application/json")]

/-- Build a response with a JSON body. -/
def mkJson (code : Nat) (cors : List (String × String)) (body : JVal) : Response :=
  { statusCode := code, headers := cors, body := .json body }

/-- The catch-all 500 response: `{error: 'Server error', details: String(err)}`. -/
def resp500 (cors : List (String × String)) (e : String) : Response :=
  mkJson 500 cors (.obj [("error", .str "Server error"), ("details", .str e)])

/-- The string actually given to `JSON.parse`: `event.body || '{}'`. -/
def eventBodyString (event : Event) : String :=
  match event.body with
  | none => "\x7b\x7d"
  | some s => if s = "" then "\x7b\x7d" else s

/-- The passenger model name used throughout the handler. -/
def passengerModel : String := "x_tour_departure_passenger"

/-- One optional string-typed entry of a save patch:
`if (typeof p.ext === 'string') vals[int] = p.ext`. -/
def strField (p : JVal) (ext internal : String) : List (String × JVal) :=
  match jsGetT p ext with
  | .str s => [(internal, .str s)]
  | _ => []

/-- One optional date-typed entry of a save patch:
`if (p.ext != null) vals[int] = toOdooDate(p.ext) || p.ext`. -/
def dateField (p : JVal) (ext internal : String) : List (String × JVal) :=
  if nullish (jsGetT p ext) then [] else [(internal, dateConvertForSave (jsGetT p ext))]

/-- The outbound field patch (`vals`) computed for one input passenger entry
in the save loop, in source order.  Keys not on this fixed allow-list never
produce an entry. -/
def buildVals (p : JVal) : List (String × JVal) :=
  strField p "first_name" "x_passenger_first_name" ++
  strField p "middle_name" "x_passenger_middle_name" ++
  strField p "last_name" "x_passenger_last_name" ++
  (if nullish (jsGetT p "sex") then [] else [("x_sex", normalizeSex (jsGetT p "sex"))]) ++
  (if nullish (jsGetT p "marital_status") then []
   else [("x_marrital_status", normalizeMaritalStatus (jsGetT p "marital_status"))]) ++
  dateField p "date_of_birth" "x_date_of_birth" ++
  dateField p "passport_issue_date" "x_passport_issue_date" ++
  dateField p "passport_expiry_date" "x_passport_expiry_date" ++
  strField p "email" "x_passenger_email" ++
  strField p "nationality" "x_nationality" ++
  strField p "home_address" "x_home_address" ++
  strField p "job_position" "x_job_position" ++
  strField p "working_at" "x_working_at" ++
  strField p "passport_number" "x_passport_number" ++
  strField p "notes" "x_notes"

/-- `(existing || []).map(p => p.id)`: throws when the value is not an array
or when an element is nullish. -/
def mapIds : JVal → Except String (List JVal)
  | .arr xs => xs.mapM (fun p => jsGet p "id")
  | _ => .error "TypeError: (existing or []).map is not a function"

/-- The id-verification `search_read` issued at the start of a save. -/
def saveSearchCall (url db : String) (uid : JVal) (key : String) (token : JVal) : RpcCall :=
  .searchRead url db uid key passengerModel [("x_studio_test_token", "=", token)] ["id"]

/-- The set of record ids the save request independently confirmed for its
token: the result of the id `search_read`, defaulted to `[]` when falsy, with
each record's `id` read off. -/
def computeValidIds (env : RpcEnv) (url db : String) (uid : JVal) (key : String)
    (token : JVal) : Except String (List JVal) := do
  let existing ← env (saveSearchCall url db uid key token)
  mapIds (jsOr existing (.arr []))

/-- The per-passenger save loop.  Returns the write calls issued in order,
and the thrown error, if any, that aborted the loop (a nullish entry's `.id`
access, or a write call that threw).  Entries whose id is falsy or not in the
valid set, and entries whose patch is empty, are skipped silently. -/
def saveLoop (env : RpcEnv) (url db : String) (uid : JVal) (key : String)
    (validIds : List JVal) : List JVal → List RpcCall × Option String
  | [] => ([], none)
  | p :: rest =>
    if nullish p then
      ([], some "TypeError: cannot read properties of null")
    else
      let pid := jsGetT p "id"
      if !truthy pid || !(validIds.any (fun x => jsStrictEq pid x)) then
        saveLoop env url db uid key validIds rest
      else
        let vals := buildVals p
        if vals.length = 0 then
          saveLoop env url db uid key validIds rest
        else
          let c := RpcCall.write url db uid key passengerModel pid vals
          match env c with
          | .error e => ([c], some e)
          | .ok _ =>
            let (tr, r) := saveLoop env url db uid key validIds rest
            (c :: tr, r)

/-- The save branch of the handler, after the `passengers` array check:
verify the token's ids, run the write loop, and reply 200 `{status:"ok"}`
when the loop completes (a throw anywhere is converted to a 500 by the
enclosing catch). -/
def runSave (env : RpcEnv) (url db : String) (uid : JVal) (key : String)
    (cors : List (String × String)) (token : JVal) (ps : List JVal) :
    Response × List RpcCall :=
  let c := saveSearchCall url db uid key token
  match computeValidIds env url db uid key token with
  | .error e => (resp500 cors e, [c])
  | .ok validIds =>
    match saveLoop env url db uid key validIds ps with
    | (tr, some e) => (resp500 cors e, c :: tr)
    | (tr, none) => (mkJson 200 cors (.obj [("status", .str "ok")]), c :: tr)

/-- The field list requested by the load branch's passenger `search_read`. -/
def loadFields : List String :=
  ["x_studio_test_token", "x_partner_id", "x_departure_id",
   "x_name", "x_passenger_first_name", "x_passenger_last_name", "x_passenger_middle_name",
   "x_passenger_email", "x_date_of_birth", "x_sex", "x_marrital_status", "x_nationality",
   "x_home_address", "x_job_position", "x_working_at",
   "x_type_of_room", "x_sharing_with", "x_pre_tour_extra_night", "x_post_tour_extra_night",
   "x_flight_arrival", "x_flight_departure",
   "x_diet", "x_allergies", "x_medical_conditions",
   "x_emergency_contact", "x_emergency_contact_number",
   "x_passport_number", "x_passport_issue_date", "x_passport_expiry_date",
   "x_notes"]

/-- The passenger `search_read` issued by the load branch. -/
def loadSearchCall (url db : String) (uid : JVal) (key : String) (token : JVal) : RpcCall :=
  .searchRead url db uid key passengerModel [("x_studio_test_token", "=", token)] loadFields

/-- Optional chaining `v?.k`: `undefined` on a nullish receiver, otherwise a
plain property read. -/
def jsGetOpt (v : JVal) (k : String) : JVal :=
  if nullish v then JVal.undef else jsGetT v k

/-- `departures && departures.length > 0` (`>` on a non-number is false). -/
def depsNonEmpty (deps : JVal) : Bool :=
  truthy deps &&
    (match jsGetT deps "length" with
     | .num n => n > 0
     | _ => false)

/-- The `departureInfo` object assembled from the departure `search_read`
result, or `null` when that result is falsy or empty; reading `.id` of a
nullish first element throws. -/
def buildDepartureInfo (deps : JVal) : Except String JVal :=
  if depsNonEmpty deps then do
    let d := jsIndex deps 0
    let i ← jsGet d "id"
    let nm ← jsGet d "x_name"
    let sd ← jsGet d "x_departure_date"
    let ed ← jsGet d "x_end_date"
    pure (.obj [("id", i), ("name", jsOr nm .null), ("start_date", jsOr sd .null),
                ("end_date", jsOr ed .null)])
  else pure .null

/-- The external passenger DTO built for one upstream record in the load
branch (`passengersData.map(p => {...})`); a nullish record throws. -/
def mapPassenger (p : JVal) : Except String JVal := do
  let partner := m2oToObj (← jsGet p "x_partner_id")
  let dep := m2oToObj (← jsGet p "x_departure_id")
  pure (.obj [
    ("id", ← jsGet p "id"),
    ("token", jsOr (← jsGet p "x_studio_test_token") .null),
    ("partner", partner),
    ("departure_m2o", dep),
    ("name", jsOr (jsOr (← jsGet p "x_name") (jsAnd partner (jsGetT partner "name"))) .null),
    ("first_name", jsOr (← jsGet p "x_passenger_first_name") .null),
    ("middle_name", jsOr (← jsGet p "x_passenger_middle_name") .null),
    ("last_name", jsOr (← jsGet p "x_passenger_last_name") .null),
    ("sex", jsOr (← jsGet p "x_sex") .null),
    ("marital_status", jsOr (← jsGet p "x_marrital_status") .null),
    ("date_of_birth", jsOr (← jsGet p "x_date_of_birth") .null),
    ("nationality", jsOr (← jsGet p "x_nationality") .null),
    ("email", jsOr (← jsGet p "x_passenger_email") .null),
    ("home_address", jsOr (← jsGet p "x_home_address") .null),
    ("job_position", jsOr (← jsGet p "x_job_position") .null),
    ("working_at", jsOr (← jsGet p "x_working_at") .null),
    ("type_of_room", jsOr (← jsGet p "x_type_of_room") .null),
    ("sharing_with", jsOr (← jsGet p "x_sharing_with") .null),
    ("pre_tour_extra_night", jsOr (← jsGet p "x_pre_tour_extra_night") .null),
    ("post_tour_extra_night", jsOr (← jsGet p "x_post_tour_extra_night") .null),
    ("flight_arrival", jsOr (← jsGet p "x_flight_arrival") .null),
    ("flight_departure", jsOr (← jsGet p "x_flight_departure") .null),
    ("diet", jsOr (← jsGet p "x_diet") .null),
    ("allergies", jsOr (← jsGet p "x_allergies") .null),
    ("medical_conditions", jsOr (← jsGet p "x_medical_conditions") .null),
    ("emergency_contact", jsOr (← jsGet p "x_emergency_contact") .null),
    ("emergency_contact_number", jsOr (← jsGet p "x_emergency_contact_number") .null),
    ("passport_number", jsOr (← jsGet p "x_passport_number") (.str "")),
    ("passport_issue_date", jsOr (← jsGet p "x_passport_issue_date") .null),
    ("passport_expiry_date", jsOr (← jsGet p "x_passport_expiry_date") .null),
    ("notes", jsOr (← jsGet p "x_notes") .null)])

/-- `passengersData.map(...)`: throws when the data is not an array. -/
def mapPassengers : JVal → Except String (List JVal)
  | .arr xs => xs.mapM mapPassenger
  | _ => .error "TypeError: passengersData.map is not a function"

/-- The load 200 response body. -/
def loadOkBody (departureInfo : JVal) (mapped : List JVal) : JVal :=
  .obj [("status", .str "ok"), ("departure", departureInfo), ("passengers", .arr mapped)]

/-- The load 404 body. -/
def notFoundBody : JVal :=
  .obj [("status", .str "not_found"), ("message", .str "No passengers found for this token")]

/-- Does the first record's `x_departure_id` trigger the departure lookup
(`Array.isArray(depField) && depField.length >= 1`)? -/
def depFieldUsable : JVal → Bool
  | .arr (_ :: _) => true
  | _ => false

/-- The load branch of the handler: query the passengers for the token,
404 on an empty or falsy result, optionally resolve the first record's
departure, and map every record to the external shape. -/
def runLoad (env : RpcEnv) (url db : String) (uid : JVal) (key : String)
    (cors : List (String × String)) (token : JVal) : Response × List RpcCall :=
  let c1 := loadSearchCall url db uid key token
  match env c1 with
  | .error e => (resp500 cors e, [c1])
  | .ok pd =>
    if !truthy pd || jsStrictEq (jsGetT pd "length") (.num 0) then
      (mkJson 404 cors notFoundBody, [c1])
    else
      let depField := jsGetOpt (jsIndex pd 0) "x_departure_id"
      if depFieldUsable depField then
        let c2 := RpcCall.searchRead url db uid key "x_tour_departure"
          [("id", "=", jsIndex depField 0)] ["x_name", "x_departure_date", "x_end_date"]
        match env c2 with
        | .error e => (resp500 cors e, [c1, c2])
        | .ok deps =>
          match buildDepartureInfo deps with
          | .error e => (resp500 cors e, [c1, c2])
          | .ok depInfo =>
            match mapPassengers pd with
            | .error e => (resp500 cors e, [c1, c2])
            | .ok mapped => (mkJson 200 cors (loadOkBody depInfo mapped), [c1, c2])
      else
        match mapPassengers pd with
        | .error e => (resp500 cors e, [c1])
        | .ok mapped => (mkJson 200 cors (loadOkBody .null mapped), [c1])

/-- The `authenticate` call issued once per POST request. -/
def authCall (cfg : Config) : RpcCall :=
  .authenticate (cfgUrl cfg) (cfgDb cfg) (cfgUser cfg) (cfgKey cfg)

/-- The handler from `netlify/functions/passenger.js`, as a pure function of
the configuration, the upstream oracle, the `JSON.parse` model and the event.
It returns the response together with the ordered trace of RPC calls issued,
or `Except.error` for the one uncaught throw (destructuring a `null` parsed
body, which happens outside the source's try/catch). -/
def handler (cfg : Config) (env : RpcEnv) (parseJson : String → Option JVal)
    (event : Event) : Except String (Response × List RpcCall) :=
  let cors := buildCorsHeaders event
  if event.httpMethod = "OPTIONS" then
    .ok ({ statusCode := 204, headers := cors, body := .raw "" }, [])
  else if event.httpMethod ≠ "POST" then
    .ok (mkJson 405 cors (.obj [("error", .str "Method not allowed")]), [])
  else
    match parseJson (eventBodyString event) with
    | none => .ok (mkJson 400 cors (.obj [("error", .str "Invalid JSON body")]), [])
    | some payload =>
      if nullish payload then
        .error "TypeError: cannot destructure properties of null"
      else if !truthy (jsGetT payload "token") then
        .ok (mkJson 400 cors (.obj [("error", .str "Missing token")]), [])
      else if !configOk cfg then
        .ok (mkJson 500 cors (.obj [("error", .str "Odoo credentials not configured on server")]), [])
      else
        let authC := authCall cfg
        match env authC with
        | .error e => .ok (resp500 cors e, [authC])
        | .ok uid =>
          if !truthy uid then
            .ok (mkJson 401 cors (.obj [("error", .str "Authentication to Odoo failed")]), [authC])
          else if jsStrictEq (jsGetT payload "action") (.str "load") then
            let (r, tr) := runLoad env (cfgUrl cfg) (cfgDb cfg) uid (cfgKey cfg) cors
              (jsGetT payload "token")
            .ok (r, authC :: tr)
          else if jsStrictEq (jsGetT payload "action") (.str "save") then
            match jsGetT payload "passengers" with
            | .arr ps =>
              let (r, tr) := runSave env (cfgUrl cfg) (cfgDb cfg) uid (cfgKey cfg) cors
                (jsGetT payload "token") ps
              .ok (r, authC :: tr)
            | _ =>
              .ok (mkJson 400 cors (.obj [("error", .str "Missing passengers array for save action")]),
                [authC])
          else
            .ok (mkJson 400 cors (.obj [("error", .str "Unknown action")]), [authC])
/-- Is a call a `write`? -/
def RpcCall.isWrite : RpcCall → Bool
  | .write _ _ _ _ _ _ _ => true
  | _ => false

/-- The internal Odoo field names the save branch is allowed to write
(the outbound allow-list of §4.2: names, sex, marital status, three dates,
email, nationality, home address, job position, employer, passport number,
notes). -/
def allowedInternalFields : List String :=
  ["x_passenger_first_name", "x_passenger_middle_name", "x_passenger_last_name",
   "x_sex", "x_marrital_status",
   "x_date_of_birth", "x_passport_issue_date", "x_passport_expiry_date",
   "x_passenger_email", "x_nationality", "x_home_address", "x_job_position", "x_working_at",
   "x_passport_number", "x_notes"]

/-- Look a header value up by exact name. -/
def lookupHeader (hs : List (String × String)) (k : String) : Option String :=
  ((hs.find? (fun kv => kv.1 = k)).map (fun kv => kv.2))

/-- Concrete deployment configuration for the evaluation scenarios. -/
def cfgA : Config :=
  ⟨some "https://odoo.example.com", some "proddb", some "svc@example.com", some "secretkey"⟩

def bodySave3 : String :=
  "\x7b\"action\":\"save\",\"token\":\"tok123\",\"passengers\":[\x7b\"id\":3,\"passport_number\":\"X\"\x7d]\x7d"

def payloadSave3 : JVal :=
  .obj [("action", .str "save"), ("token", .str "tok123"),
        ("passengers", .arr [.obj [("id", .num 3), ("passport_number", .str "X")]])]

def bodySaveAdmin : String :=
  "\x7b\"action\":\"save\",\"token\":\"tok123\",\"passengers\":[\x7b\"id\":1,\"superAdmin\":true\x7d]\x7d"

def payloadSaveAdmin : JVal :=
  .obj [("action", .str "save"), ("token", .str "tok123"),
        ("passengers", .arr [.obj [("id", .num 1), ("superAdmin", .bool true)]])]

def bodySaveName : String :=
  "\x7b\"action\":\"save\",\"token\":\"tok123\",\"passengers\":[\x7b\"id\":1,\"first_name\":\"Ada\"\x7d]\x7d"

def payloadSaveName : JVal :=
  .obj [("action", .str "save"), ("token", .str "tok123"),
        ("passengers", .arr [.obj [("id", .num 1), ("first_name", .str "Ada")]])]

def bodyLoad : String := "\x7b\"action\":\"load\",\"token\":\"tok123\"\x7d"

def payloadLoad : JVal := .obj [("action", .str "load"), ("token", .str "tok123")]

def bodyNoToken : String := "\x7b\"action\":\"load\"\x7d"

def payloadNoToken : JVal := .obj [("action", .str "load")]

def parseA (s : String) : Option JVal :=
  if s = "\x7b\x7d" then some (.obj [])
  else if s = "null" then some .null
  else if s = bodySave3 then some payloadSave3
  else if s = bodySaveAdmin then some payloadSaveAdmin
  else if s = bodySaveName then some payloadSaveName
  else if s = bodyLoad then some payloadLoad
  else if s = bodyNoToken then some payloadNoToken
  else none

def envA : RpcEnv := fun c =>
  match c with
  | .authenticate _ _ _ _ => .ok (.num 7)
  | .searchRead _ _ _ _ _ _ _ => .ok (.arr [.obj [("id", .num 1)], .obj [("id", .num 2)]])
  | .write _ _ _ _ _ _ _ => .ok (.bool false)
  | _ => .error "unreachable"

def envEmpty : RpcEnv := fun c =>
  match c with
  | .authenticate _ _ _ _ => .ok (.num 7)
  | .searchRead _ _ _ _ _ _ _ => .ok (.arr [])
  | _ => .error "unreachable"

def eventOf (body : String) : Event :=
  { httpMethod := "POST",
    headers := some [("origin", "https://adventurebound.travel")],
    body := some body }

/-- A configuration with every Odoo variable missing. -/
def cfgNone : Config := ⟨none, none, none, none⟩

/-- A CORS-preflight request from an origin not on the allow-list. -/
def eventOpt : Event :=
  { httpMethod := "OPTIONS", headers := some [("origin", "https://unlisted.example")], body := none }

/-- A POST request with no body at all. -/
def eventNoBody : Event :=
  { httpMethod := "POST", headers := some [("Origin", "https://adventurebound.travel")], body := none }

/-- A POST request whose body is the JSON text `null`. -/
def eventNullBody : Event := { httpMethod := "POST", headers := none, body := some "null" }

theorem dropWhile_self_of_head (p : Char → Bool) (l : List Char)
    (h : ∀ a ∈ l.head?, p a = false) : l.dropWhile p = l := by
  cases l with
  | nil => rfl
  | cons x xs =>
    have hx : p x = false := h x (by simp)
    simp [List.dropWhile_cons, hx]

theorem head_dropWhile_false (p : Char → Bool) (l : List Char) :
    ∀ a ∈ (l.dropWhile p).head?, p a = false := by
  induction l with
  | nil => simp [List.dropWhile]
  | cons x xs ih =>
    intro a ha
    rw [List.dropWhile_cons] at ha
    by_cases h : p x
    · rw [if_pos h] at ha
      exact ih a ha
    · rw [if_neg h] at ha
      simp at ha
      rw [← ha]
      exact Bool.eq_false_iff.mpr h

theorem getLast_dropWhile (p : Char → Bool) (l : List Char) (a : Char)
    (hl : l.getLast? = some a) (hp : p a = false) :
    (l.dropWhile p).getLast? = some a := by
  induction l with
  | nil => simp at hl
  | cons x xs ih =>
    rw [List.dropWhile_cons]
    by_cases h : p x
    · rw [if_pos h]
      cases xs with
      | nil =>
        simp at hl
        rw [hl] at h
        rw [hp] at h
        cases h
      | cons y ys =>
        rw [List.getLast?_cons_cons] at hl
        exact ih hl
    · rw [if_neg h]
      exact hl

theorem trimChars_getLast (l : List Char) :
    ∀ a ∈ (trimChars l).getLast?, jsWs a = false := by
  intro a ha
  unfold trimChars at ha
  rw [List.getLast?_reverse] at ha
  exact head_dropWhile_false jsWs _ a ha

theorem trimChars_head (l : List Char) :
    ∀ a ∈ (trimChars l).head?, jsWs a = false := by
  intro a ha
  unfold trimChars at ha
  rw [List.head?_reverse] at ha
  cases hm : (l.dropWhile jsWs).head? with
  | none =>
    have : l.dropWhile jsWs = [] := by
      cases hh : l.dropWhile jsWs with
      | nil => rfl
      | cons u us => rw [hh] at hm; simp at hm
    rw [this] at ha
    simp at ha
  | some b =>
    have hb : jsWs b = false := head_dropWhile_false jsWs l b hm
    have hrl : (l.dropWhile jsWs).reverse.getLast? = some b := by
      rw [List.getLast?_reverse]; exact hm
    have := getLast_dropWhile jsWs (l.dropWhile jsWs).reverse b hrl hb
    rw [this] at ha
    simp at ha
    rw [← ha]
    exact hb

theorem trimChars_idem (l : List Char) : trimChars (trimChars l) = trimChars l := by
  have h1 : (trimChars l).dropWhile jsWs = trimChars l :=
    dropWhile_self_of_head jsWs _ (trimChars_head l)
  have h2 : (trimChars l).reverse.dropWhile jsWs = (trimChars l).reverse := by
    apply dropWhile_self_of_head
    intro a ha
    rw [List.head?_reverse] at ha
    exact trimChars_getLast l a ha
  have h0 : trimChars (trimChars l) =
      List.reverse (List.dropWhile jsWs (List.reverse (List.dropWhile jsWs (trimChars l)))) := rfl
  rw [h0, h1, h2, List.reverse_reverse]

theorem jsTrim_idem (s : String) : jsTrim (jsTrim s) = jsTrim s := by
  unfold jsTrim
  rw [show (String.mk (trimChars s.data)).data = trimChars s.data from rfl, trimChars_idem]

theorem normalizeSex_idem (v : JVal) (h : truthy v = true → jsTrim (jsToString v) ≠ "") :
    normalizeSex (normalizeSex v) = normalizeSex v := by
  by_cases hv : truthy v = true
  · have ht : jsTrim (jsToString v) ≠ "" := h hv
    by_cases h1 : jsToLower (jsTrim (jsToString v)) = "male"
    · have e : normalizeSex v = .str "MALE" := by simp [normalizeSex, hv, h1]
      rw [e]; rfl
    · by_cases h2 : jsToLower (jsTrim (jsToString v)) = "female"
      · have e : normalizeSex v = .str "FEMALE" := by simp [normalizeSex, hv, h1, h2]
        rw [e]; rfl
      · by_cases h3a : jsToLower (jsTrim (jsToString v)) = "rather not say"
        · have e : normalizeSex v = .str "RATHER_NOT_SAY" := by
            simp [normalizeSex, hv, h1, h2, h3a]
          rw [e]; rfl
        · by_cases h3b : jsToLower (jsTrim (jsToString v)) = "rather_not_say"
          · have e : normalizeSex v = .str "RATHER_NOT_SAY" := by
              simp [normalizeSex, hv, h1, h2, h3a, h3b]
            rw [e]; rfl
          · by_cases h3c : jsToLower (jsTrim (jsToString v)) = "prefer not to say"
            · have e : normalizeSex v = .str "RATHER_NOT_SAY" := by
                simp [normalizeSex, hv, h1, h2, h3a, h3b, h3c]
              rw [e]; rfl
            · have e : normalizeSex v = .str (jsTrim (jsToString v)) := by
                simp [normalizeSex, hv, h1, h2, h3a, h3b, h3c]
              rw [e]
              have htt : jsTrim (jsTrim (jsToString v)) = jsTrim (jsToString v) := jsTrim_idem _
              simp [normalizeSex, truthy, ht, jsToString, htt, h1, h2, h3a, h3b, h3c]
  · have hv' : truthy v = false := by revert hv; cases truthy v <;> simp
    have e : normalizeSex v = .null := by simp [normalizeSex, hv']
    rw [e]; rfl

theorem matchDDMMYYYY_eq_some {t dd mm yyyy : String}
    (h : matchDDMMYYYY t = some (dd, mm, yyyy)) :
    t = dd ++ "/" ++ mm ++ "/" ++ yyyy ∧ yyyy ++ "-" ++ mm ++ "-" ++ dd ≠ "" := by
  unfold matchDDMMYYYY at h
  split at h
  next d1 d2 s1 m1 m2 s2 y1 y2 y3 y4 heq =>
    split at h
    next hcond =>
      simp only [Option.some.injEq, Prod.mk.injEq] at h
      obtain ⟨hdd, hmm, hyy⟩ := h
      simp only [Bool.and_eq_true, decide_eq_true_eq] at hcond
      obtain ⟨⟨⟨⟨⟨⟨⟨⟨⟨c1, c2⟩, c3⟩, c4⟩, c5⟩, c6⟩, c7⟩, c8⟩, c9⟩, c10⟩ := hcond
      constructor
      · apply String.ext
        rw [String.data_append, String.data_append, String.data_append]
        rw [← hdd, ← hmm, ← hyy]
        rw [heq, c3, c6]
        rfl
      · intro h0
        apply congrArg String.data at h0
        rw [String.data_append, String.data_append, String.data_append, ← hyy] at h0
        simp at h0
    next _ => cases h
  next => cases h

theorem runLoad_headersFst (env : RpcEnv) (url db : String) (uid : JVal) (key : String)
    (cors : List (String × String)) (token : JVal) :
    (runLoad env url db uid key cors token).1.headers = cors := by
  unfold runLoad
  dsimp only
  repeat' split
  all_goals rfl

theorem runSave_headersFst (env : RpcEnv) (url db : String) (uid : JVal) (key : String)
    (cors : List (String × String)) (token : JVal) (ps : List JVal) :
    (runSave env url db uid key cors token ps).1.headers = cors := by
  unfold runSave
  dsimp only
  repeat' split
  all_goals rfl

theorem handler_headers (cfg : Config) (env : RpcEnv) (parseJson : String → Option JVal)
    (event : Event) (out : Response × List RpcCall)
    (h : handler cfg env parseJson event = .ok out) :
    out.1.headers = buildCorsHeaders event := by
  unfold handler at h
  dsimp only at h
  repeat' split at h
  all_goals first
    | exact Except.noConfusion h
    | (injection h with h2; subst h2; rfl)
    | (injection h with h2; subst h2; exact runLoad_headersFst _ _ _ _ _ _ _)
    | (injection h with h2; subst h2; exact runSave_headersFst _ _ _ _ _ _ _ _)

theorem jsStrictEq_eq {a b : JVal} (h : jsStrictEq a b = true) : a = b := by
  cases a <;> cases b <;> simp [jsStrictEq] at h <;> simp [h]

theorem saveLoop_writes (env : RpcEnv) (url db : String) (uid : JVal) (key : String)
    (validIds : List JVal) (ps : List JVal) :
    ∀ c ∈ (saveLoop env url db uid key validIds ps).1,
      ∃ id vals, c = RpcCall.write url db uid key passengerModel id vals ∧
        truthy id = true ∧ id ∈ validIds := by
  induction ps with
  | nil => intro c hc; simp [saveLoop] at hc
  | cons p rest ih =>
    intro c hc
    unfold saveLoop at hc
    dsimp only at hc
    split at hc
    · simp at hc
    · split at hc
      · exact ih c hc
      · split at hc
        · exact ih c hc
        · next hguard _ =>
          have hg : truthy (jsGetT p "id") = true ∧
              ∃ x ∈ validIds, jsStrictEq (jsGetT p "id") x = true := by
            simpa using hguard
          have hmem : jsGetT p "id" ∈ validIds := by
            rcases hg.2 with ⟨x, hx, hsx⟩
            rcases jsStrictEq_eq hsx with rfl
            exact hx
          split at hc
          · simp at hc
            subst hc
            exact ⟨jsGetT p "id", buildVals p, rfl, hg.1, hmem⟩
          · simp at hc
            rcases hc with hc | hc
            · subst hc
              exact ⟨jsGetT p "id", buildVals p, rfl, hg.1, hmem⟩
            · exact ih c hc

theorem runLoad_trace (env : RpcEnv) (url db : String) (uid : JVal) (key : String)
    (cors : List (String × String)) (token : JVal) :
    ∀ c ∈ (runLoad env url db uid key cors token).2,
      c.isWrite = false ∧ c.isCreate = false ∧ c.isUnlink = false := by
  intro c hc
  unfold runLoad at hc
  dsimp only at hc
  repeat' split at hc
  all_goals simp at hc
  all_goals rcases hc with rfl | rfl <;> exact ⟨rfl, rfl, rfl⟩

theorem runSave_trace (env : RpcEnv) (url db : String) (uid : JVal) (key : String)
    (cors : List (String × String)) (token : JVal) (ps : List JVal) :
    ∀ c ∈ (runSave env url db uid key cors token ps).2,
      c = saveSearchCall url db uid key token ∨
      ∃ ids, computeValidIds env url db uid key token = .ok ids ∧
        ∃ id vals, c = RpcCall.write url db uid key passengerModel id vals ∧
          truthy id = true ∧ id ∈ ids := by
  intro c hc
  unfold runSave at hc
  dsimp only at hc
  split at hc
  · simp at hc
    subst hc
    exact .inl rfl
  · next ids hids =>
    split at hc <;>
      (next hloop =>
        simp at hc
        rcases hc with rfl | hc
        · exact .inl rfl
        · have := saveLoop_writes env url db uid key ids ps c (by rw [hloop]; exact hc)
          exact .inr ⟨ids, hids, this⟩)

theorem handler_trace (cfg : Config) (env : RpcEnv) (parseJson : String → Option JVal)
    (event : Event) (out : Response × List RpcCall)
    (h : handler cfg env parseJson event = .ok out) :
    (∀ c ∈ out.2, c.isCreate = false ∧ c.isUnlink = false) ∧
    (∀ url db uid key modelName id vals,
       RpcCall.write url db uid key modelName id vals ∈ out.2 →
       modelName = passengerModel ∧ truthy id = true ∧
       ∃ payload ids, parseJson (eventBodyString event) = some payload ∧
         computeValidIds env url db uid key (jsGetT payload "token") = .ok ids ∧ id ∈ ids) := by
  unfold handler at h
  dsimp only at h
  split at h
  · injection h with h2; subst h2
    exact ⟨by intro c hc; simp at hc, by intro u d ui k m i vs hw; simp [authCall] at hw⟩
  · split at h
    · injection h with h2; subst h2
      exact ⟨by intro c hc; simp at hc, by intro u d ui k m i vs hw; simp [authCall] at hw⟩
    · split at h
      · injection h with h2; subst h2
        exact ⟨by intro c hc; simp at hc, by intro u d ui k m i vs hw; simp [authCall] at hw⟩
      · next payload hparse =>
        split at h
        · exact Except.noConfusion h
        · split at h
          · injection h with h2; subst h2
            exact ⟨by intro c hc; simp at hc, by intro u d ui k m i vs hw; simp [authCall] at hw⟩
          · split at h
            · injection h with h2; subst h2
              exact ⟨by intro c hc; simp at hc, by intro u d ui k m i vs hw; simp [authCall] at hw⟩
            · split at h
              · injection h with h2; subst h2
                refine ⟨?_, ?_⟩
                · intro c hc; simp at hc; subst hc; exact ⟨rfl, rfl⟩
                · intro u d ui k m i vs hw; simp [authCall] at hw
              · next uid hauth =>
                split at h
                · injection h with h2; subst h2
                  refine ⟨?_, ?_⟩
                  · intro c hc; simp at hc; subst hc; exact ⟨rfl, rfl⟩
                  · intro u d ui k m i vs hw; simp [authCall] at hw
                · split at h
                  · -- load branch
                    injection h with h2; subst h2
                    dsimp only
                    refine ⟨?_, ?_⟩
                    · intro c hc
                      rcases List.mem_cons.mp hc with rfl | hc2
                      · exact ⟨rfl, rfl⟩
                      · have := runLoad_trace env (cfgUrl cfg) (cfgDb cfg) uid (cfgKey cfg)
                          (buildCorsHeaders event) (jsGetT payload "token") c hc2
                        exact ⟨this.2.1, this.2.2⟩
                    · intro u d ui k m i vs hw
                      rcases List.mem_cons.mp hw with heqw | hw2
                      · exact RpcCall.noConfusion heqw
                      · have := runLoad_trace env (cfgUrl cfg) (cfgDb cfg) uid (cfgKey cfg)
                          (buildCorsHeaders event) (jsGetT payload "token") _ hw2
                        simp [RpcCall.isWrite] at this
                  · split at h
                    · split at h
                      · next ps harr =>
                        -- save branch
                        injection h with h2; subst h2
                        dsimp only
                        refine ⟨?_, ?_⟩
                        · intro c hc
                          rcases List.mem_cons.mp hc with rfl | hc2
                          · exact ⟨rfl, rfl⟩
                          · rcases runSave_trace env (cfgUrl cfg) (cfgDb cfg) uid (cfgKey cfg)
                              (buildCorsHeaders event) (jsGetT payload "token") ps c hc2 with
                              rfl | ⟨ids, hids, i, vs, rfl, _, _⟩
                            · exact ⟨rfl, rfl⟩
                            · exact ⟨rfl, rfl⟩
                        · intro u d ui k m i vs hw
                          rcases List.mem_cons.mp hw with heqw | hw2
                          · exact RpcCall.noConfusion heqw
                          · rcases runSave_trace env (cfgUrl cfg) (cfgDb cfg) uid (cfgKey cfg)
                              (buildCorsHeaders event) (jsGetT payload "token") ps _ hw2 with
                              heqw | ⟨ids, hids, i2, vs2, heqw, htr, hmem⟩
                            · exact RpcCall.noConfusion heqw
                            · injection heqw with e1 e2 e3 e4 e5 e6 e7
                              subst e1; subst e2; subst e3; subst e4; subst e5; subst e6; subst e7
                              exact ⟨rfl, htr, payload, ids, hparse, hids, hmem⟩
                      · injection h with h2; subst h2
                        refine ⟨?_, ?_⟩
                        · intro c hc; simp at hc; subst hc; exact ⟨rfl, rfl⟩
                        · intro u d ui k m i vs hw; simp [authCall] at hw
                    · injection h with h2; subst h2
                      refine ⟨?_, ?_⟩
                      · intro c hc; simp at hc; subst hc; exact ⟨rfl, rfl⟩
                      · intro u d ui k m i vs hw; simp [authCall] at hw

theorem saveLoop_all_skipped (env : RpcEnv) (url db : String) (uid : JVal) (key : String)
    (validIds : List JVal) (ps : List JVal)
    (h : ∀ p ∈ ps, nullish p = false ∧
        (truthy (jsGetT p "id") = false ∨
         validIds.any (fun x => jsStrictEq (jsGetT p "id") x) = false)) :
    saveLoop env url db uid key validIds ps = ([], none) := by
  induction ps with
  | nil => rfl
  | cons p rest ih =>
    obtain ⟨hp, hskip⟩ := h p (by simp)
    have hcond : (!truthy (jsGetT p "id") ||
        !(validIds.any (fun x => jsStrictEq (jsGetT p "id") x))) = true := by
      rcases hskip with h1 | h1 <;> simp [h1]
    have ihr := ih (fun q hq => h q (by simp [hq]))
    simp [saveLoop, hp, hcond, ihr]

theorem runSave_all_skipped (env : RpcEnv) (url db : String) (uid : JVal) (key : String)
    (cors : List (String × String)) (token : JVal) (ps : List JVal) (ids : List JVal)
    (hids : computeValidIds env url db uid key token = .ok ids)
    (h : ∀ p ∈ ps, nullish p = false ∧
        (truthy (jsGetT p "id") = false ∨
         ids.any (fun x => jsStrictEq (jsGetT p "id") x) = false)) :
    runSave env url db uid key cors token ps =
      (mkJson 200 cors (.obj [("status", .str "ok")]), [saveSearchCall url db uid key token]) := by
  unfold runSave
  rw [hids]
  dsimp only
  rw [saveLoop_all_skipped env url db uid key ids ps h]

theorem strField_key {p : JVal} {e i k : String} {v : JVal}
    (h : (k, v) ∈ strField p e i) : k = i := by
  unfold strField at h
  split at h
  · simp at h
    exact h.1
  · simp at h

theorem dateField_key {p : JVal} {e i k : String} {v : JVal}
    (h : (k, v) ∈ dateField p e i) : k = i := by
  unfold dateField at h
  split at h
  · simp at h
  · simp at h
    exact h.1

theorem mem_skip_or_single {c : Prop} [Decidable c] {k i : String} {v x : JVal}
    (h : (k, v) ∈ (if c then ([] : List (String × JVal)) else [(i, x)])) : k = i := by
  split at h
  · simp at h
  · simp at h
    exact h.1

theorem buildVals_allowlist (p : JVal) (k : String) (v : JVal)
    (h : (k, v) ∈ buildVals p) : k ∈ allowedInternalFields := by
  simp only [buildVals, List.mem_append, or_assoc] at h
  rcases h with h|h|h|h|h|h|h|h|h|h|h|h|h|h|h <;>
    first
      | (rw [strField_key h]; decide)
      | (rw [dateField_key h]; decide)
      | (rw [mem_skip_or_single h]; decide)

/-- Claim C1: on every request, each write call the handler issues targets the
passenger model with a truthy record id that the same request's independent id
search (replayed through `computeValidIds` on the request's own token) returned;
no `create` or `unlink` call ever appears in the trace; and a save whose every
passenger entry has a missing/falsy id or an id outside the valid set issues no
write at all while the save branch still answers 200 with status ok. -/
theorem claim_C1 (cfg : Config) (env : RpcEnv) (parseJson : String → Option JVal)
    (event : Event) (out : Response × List RpcCall)
    (h : handler cfg env parseJson event = .ok out) :
    ((∀ c ∈ out.2, c.isCreate = false ∧ c.isUnlink = false) ∧
     (∀ url db uid key modelName id vals,
        RpcCall.write url db uid key modelName id vals ∈ out.2 →
        modelName = passengerModel ∧ truthy id = true ∧
        ∃ payload ids, parseJson (eventBodyString event) = some payload ∧
          computeValidIds env url db uid key (jsGetT payload "token") = .ok ids ∧ id ∈ ids)) ∧
    (∀ (env₂ : RpcEnv) (url db : String) (uid : JVal) (key : String)
       (cors : List (String × String)) (token : JVal) (ps ids : List JVal),
       computeValidIds env₂ url db uid key token = .ok ids →
       (∀ p ∈ ps, nullish p = false ∧
          (truthy (jsGetT p "id") = false ∨
           ids.any (fun x => jsStrictEq (jsGetT p "id") x) = false)) →
       runSave env₂ url db uid key cors token ps =
         (mkJson 200 cors (.obj [("status", .str "ok")]),
          [saveSearchCall url db uid key token])) :=
  ⟨handler_trace cfg env parseJson event out h,
   fun env₂ url db uid key cors token ps ids hids hsk =>
     runSave_all_skipped env₂ url db uid key cors token ps ids hids hsk⟩

/-- Witness for C1: in the concrete save scenario with valid ids 1 and 2 and
input entry id 3, the trace facts hold and the skipped save still answers 200. -/
theorem claim_C1_witness :
    ((authCall cfgA).isCreate = false ∧ (authCall cfgA).isUnlink = false) ∧
    runSave envA (cfgUrl cfgA) (cfgDb cfgA) (.num 7) (cfgKey cfgA)
      (buildCorsHeaders (eventOf bodySave3)) (.str "tok123")
      [.obj [("id", .num 3), ("passport_number", .str "X")]] =
      (mkJson 200 (buildCorsHeaders (eventOf bodySave3)) (.obj [("status", .str "ok")]),
       [saveSearchCall (cfgUrl cfgA) (cfgDb cfgA) (.num 7) (cfgKey cfgA) (.str "tok123")]) :=
  ⟨(claim_C1 cfgA envA parseA (eventOf bodySave3)
      (mkJson 200 (buildCorsHeaders (eventOf bodySave3)) (.obj [("status", .str "ok")]),
       [authCall cfgA,
        saveSearchCall (cfgUrl cfgA) (cfgDb cfgA) (.num 7) (cfgKey cfgA) (.str "tok123")])
      rfl).1.1 (authCall cfgA) (List.mem_cons_self _ _),
   (claim_C1 cfgA envA parseA (eventOf bodySave3)
      (mkJson 200 (buildCorsHeaders (eventOf bodySave3)) (.obj [("status", .str "ok")]),
       [authCall cfgA,
        saveSearchCall (cfgUrl cfgA) (cfgDb cfgA) (.num 7) (cfgKey cfgA) (.str "tok123")])
      rfl).2 envA (cfgUrl cfgA) (cfgDb cfgA) (.num 7) (cfgKey cfgA)
      (buildCorsHeaders (eventOf bodySave3)) (.str "tok123")
      [.obj [("id", .num 3), ("passport_number", .str "X")]] [.num 1, .num 2]
      rfl (by decide)⟩

/-- Claim C2: every key of the outbound patch computed for a save entry lies on
the fixed internal allow-list (names, sex, marital status, the three date
fields, email, nationality, home address, job position, employer, passport
number, notes); the entry with valid id 1 and only the extraneous key
`superAdmin` yields an empty patch; and the full request carrying that entry
performs no write call and still answers 200 with no error. -/
theorem claim_C2 :
    (∀ p k v, (k, v) ∈ buildVals p → k ∈ allowedInternalFields) ∧
    buildVals (.obj [("id", .num 1), ("superAdmin", .bool true)]) = [] ∧
    handler cfgA envA parseA (eventOf bodySaveAdmin) =
      .ok (mkJson 200 (buildCorsHeaders (eventOf bodySaveAdmin)) (.obj [("status", .str "ok")]),
        [authCall cfgA,
         saveSearchCall (cfgUrl cfgA) (cfgDb cfgA) (.num 7) (cfgKey cfgA) (.str "tok123")]) :=
  ⟨buildVals_allowlist, rfl, rfl⟩

/-- Witness for C2: the sex field of a concrete entry lands on the allow-list. -/
theorem claim_C2_witness : "x_sex" ∈ allowedInternalFields :=
  claim_C2.1 (.obj [("sex", .str "Male")]) "x_sex" (.str "MALE")
    (by rw [show buildVals (.obj [("sex", .str "Male")]) = [("x_sex", JVal.str "MALE")] from rfl]
        exact List.mem_cons_self _ _)

/-- Claim C3 (amended): every string whose *trimmed* form matches the
`dd/mm/yyyy` pattern is converted, in a save patch, to `yyyy-mm-dd` built from
exactly the matched day/month/year digit groups, and every string whose trimmed
form does not match passes through unchanged.  (The amendment: `toOdooDate`
trims its input before matching, so a string matching only after whitespace
removal is converted rather than passed through — see the counterexample.) -/
theorem claim_C3 :
  (∀ s dd mm yyyy, matchDDMMYYYY (jsTrim s) = some (dd, mm, yyyy) →
     jsTrim s = dd ++ "/" ++ mm ++ "/" ++ yyyy ∧
     dateConvertForSave (.str s) = .str (yyyy ++ "-" ++ mm ++ "-" ++ dd)) ∧
  (∀ s, matchDDMMYYYY (jsTrim s) = none → dateConvertForSave (.str s) = .str s) := by
  constructor
  · intro s dd mm yyyy h
    obtain ⟨hre, hne⟩ := matchDDMMYYYY_eq_some h
    refine ⟨hre, ?_⟩
    have hs : s ≠ "" := by
      intro h0
      subst h0
      rw [show matchDDMMYYYY (jsTrim "") = none from rfl] at h
      cases h
    simp [dateConvertForSave, toOdooDate, truthy, jsToString, hs, h, jsOr, hne]
  · intro s h
    by_cases hs : s = ""
    · subst hs; rfl
    · simp [dateConvertForSave, toOdooDate, truthy, jsToString, hs, h, jsOr]

/-- Counterexample for C3 as stated: " 05/03/2026" (leading space) does not
match the dd/mm/yyyy pattern, yet the save patch converts it instead of
passing it through unchanged. -/
theorem claim_C3_counterexample :
    matchDDMMYYYY " 05/03/2026" = none ∧
    dateConvertForSave (.str " 05/03/2026") = .str "2026-03-05" ∧
    JVal.str "2026-03-05" ≠ JVal.str " 05/03/2026" :=
  ⟨rfl, rfl, by
    intro hx
    injection hx with hx2
    exact absurd hx2 (by decide)⟩

/-- Witness for C3: a matching date converts with its digit groups, an
already-ISO date passes through. -/
theorem claim_C3_witness :
    (jsTrim "05/03/2026" = "05" ++ "/" ++ "03" ++ "/" ++ "2026" ∧
     dateConvertForSave (.str "05/03/2026") = .str ("2026" ++ "-" ++ "03" ++ "-" ++ "05")) ∧
    dateConvertForSave (.str "2026-03-05") = .str "2026-03-05" :=
  ⟨claim_C3.1 "05/03/2026" "05" "03" "2026" rfl, claim_C3.2 "2026-03-05" rfl⟩

/-- Claim C4 (amended): sex normalization is case-insensitive — any value whose
trimmed, lowercased string form is "male"/"female"/one of the rather-not-say
synonyms maps to MALE/FEMALE/RATHER_NOT_SAY, any other truthy value is returned
trimmed and otherwise unchanged, and falsy input yields null — and it is
idempotent for every input except a truthy value whose string form trims to the
empty string (e.g. a whitespace-only string), where a second application
collapses the trimmed empty string to null — see the counterexample. -/
theorem claim_C4 :
    (∀ v : JVal, (truthy v = true → jsTrim (jsToString v) ≠ "") →
       normalizeSex (normalizeSex v) = normalizeSex v) ∧
    (∀ v, truthy v = true → jsToLower (jsTrim (jsToString v)) = "male" →
       normalizeSex v = .str "MALE") ∧
    (∀ v, truthy v = true → jsToLower (jsTrim (jsToString v)) = "female" →
       normalizeSex v = .str "FEMALE") ∧
    (∀ v, truthy v = true →
       (jsToLower (jsTrim (jsToString v)) = "rather not say" ∨
        jsToLower (jsTrim (jsToString v)) = "rather_not_say" ∨
        jsToLower (jsTrim (jsToString v)) = "prefer not to say") →
       normalizeSex v = .str "RATHER_NOT_SAY") ∧
    (∀ v, truthy v = true →
       jsToLower (jsTrim (jsToString v)) ∉
         (["male", "female", "rather not say", "rather_not_say", "prefer not to say"] : List String) →
       normalizeSex v = .str (jsTrim (jsToString v))) ∧
    (∀ v, truthy v = false → normalizeSex v = .null) := by
  refine ⟨normalizeSex_idem, ?_, ?_, ?_, ?_, ?_⟩
  · intro v hv h
    simp [normalizeSex, hv, h]
  · intro v hv h
    simp [normalizeSex, hv, h]
  · intro v hv h
    rcases h with h | h | h <;> simp [normalizeSex, hv, h]
  · intro v hv h
    simp only [List.mem_cons, List.not_mem_nil, or_false, not_or] at h
    obtain ⟨h1, h2, h3, h4, h5⟩ := h
    simp [normalizeSex, hv, h1, h2, h3, h4, h5]
  · intro v hv
    simp [normalizeSex, hv]

/-- Counterexample for C4 as stated: normalization is not idempotent on the
whitespace-only string " ": the first pass trims it to the truthy-checked
empty string, the second collapses that to null. -/
theorem claim_C4_counterexample :
    normalizeSex (normalizeSex (.str " ")) ≠ normalizeSex (.str " ") := by
  intro h
  rw [show normalizeSex (.str " ") = .str "" from rfl] at h
  rw [show normalizeSex (.str "") = .null from rfl] at h
  cases h

/-- Witness for C4: concrete instances of idempotence, the mappings, the
pass-through and the falsy case. -/
theorem claim_C4_witness :
    normalizeSex (normalizeSex (.str "Male")) = normalizeSex (.str "Male") ∧
    normalizeSex (.str "Male") = .str "MALE" ∧
    normalizeSex (.str "FeMaLe") = .str "FEMALE" ∧
    normalizeSex (.str " Prefer Not To Say ") = .str "RATHER_NOT_SAY" ∧
    normalizeSex (.str " X-123 ") = .str "X-123" ∧
    normalizeSex (.str "") = .null :=
  ⟨claim_C4.1 (.str "Male") (fun _ => by decide),
   claim_C4.2.1 (.str "Male") (by decide) (by decide),
   claim_C4.2.2.1 (.str "FeMaLe") (by decide) (by decide),
   claim_C4.2.2.2.1 (.str " Prefer Not To Say ") (by decide) (.inr (.inr (by decide))),
   claim_C4.2.2.2.2.1 (.str " X-123 ") (by decide) (by decide),
   claim_C4.2.2.2.2.2 (.str "") (by decide)⟩

/-- Claim C5: a POST load request whose passenger query returns a falsy or
empty result answers 404 with the structured not-found body (status
"not_found"), the trace being exactly the authenticate and search calls. -/
theorem claim_C5 (cfg : Config) (env : RpcEnv) (parseJson : String → Option JVal)
    (event : Event) (payload uid pd : JVal)
    (hm : event.httpMethod = "POST")
    (hp : parseJson (eventBodyString event) = some payload)
    (hnn : nullish payload = false)
    (htok : truthy (jsGetT payload "token") = true)
    (hcfg : configOk cfg = true)
    (hauth : env (authCall cfg) = .ok uid)
    (huid : truthy uid = true)
    (hact : jsStrictEq (jsGetT payload "action") (.str "load") = true)
    (hsearch : env (loadSearchCall (cfgUrl cfg) (cfgDb cfg) uid (cfgKey cfg)
        (jsGetT payload "token")) = .ok pd)
    (hempty : (!truthy pd || jsStrictEq (jsGetT pd "length") (.num 0)) = true) :
    handler cfg env parseJson event =
      .ok (mkJson 404 (buildCorsHeaders event) notFoundBody,
        [authCall cfg,
         loadSearchCall (cfgUrl cfg) (cfgDb cfg) uid (cfgKey cfg) (jsGetT payload "token")]) := by
  unfold handler runLoad
  rw [hm, hp]
  simp [hnn, htok, hcfg, hauth, huid, hact, hsearch, hempty]

/-- Witness for C5: the concrete load with an empty search result answers 404. -/
theorem claim_C5_witness :
    handler cfgA envEmpty parseA (eventOf bodyLoad) =
      .ok (mkJson 404 (buildCorsHeaders (eventOf bodyLoad)) notFoundBody,
        [authCall cfgA,
         loadSearchCall (cfgUrl cfgA) (cfgDb cfgA) (.num 7) (cfgKey cfgA) (.str "tok123")]) :=
  claim_C5 cfgA envEmpty parseA (eventOf bodyLoad) payloadLoad (.num 7) (.arr [])
    rfl rfl rfl rfl rfl rfl rfl rfl rfl rfl

/-- Claim C6 (amended): a POST request whose parsed body is an object (or any
non-nullish value) lacking a truthy token answers 400 "Missing token"
regardless of the action value and of the configuration, with no RPC call
issued.  (The amendment restricts the parsed body to non-null values: for the
body text "null" the handler instead throws while destructuring, outside its
try/catch — see the counterexample.) -/
theorem claim_C6 (cfg : Config) (env : RpcEnv) (parseJson : String → Option JVal)
    (event : Event) (payload : JVal) (hm : event.httpMethod = "POST")
    (hp : parseJson (eventBodyString event) = some payload)
    (hnn : nullish payload = false)
    (htok : truthy (jsGetT payload "token") = false) :
    handler cfg env parseJson event =
      .ok (mkJson 400 (buildCorsHeaders event) (.obj [("error", .str "Missing token")]), []) := by
  unfold handler
  rw [hm, hp]
  simp [hnn, htok]

/-- Counterexample for C6 as stated: for the body text "null" (which
`JSON.parse` maps to null, as the parser model records) the handler does not
respond 400 — destructuring the null payload throws outside the try/catch, so
no response is produced at all. -/
theorem claim_C6_counterexample :
    parseA "null" = some JVal.null ∧
    handler cfgA envA parseA eventNullBody =
      .error "TypeError: cannot destructure properties of null" :=
  ⟨rfl, rfl⟩

/-- Witness for C6: a parsed object body with an action but no token gets 400. -/
theorem claim_C6_witness :
    handler cfgA envA parseA (eventOf bodyNoToken) =
      .ok (mkJson 400 (buildCorsHeaders (eventOf bodyNoToken))
        (.obj [("error", .str "Missing token")]), []) :=
  claim_C6 cfgA envA parseA (eventOf bodyNoToken) payloadNoToken rfl rfl rfl rfl

/-- Claim C7: a save request with a passengers array whose per-passenger write
loop completes (no thrown write) answers 200 with body status ok regardless of
the values the individual writes returned, the trace being the authenticate
call, the id search, and the issued writes in order. -/
theorem claim_C7 (cfg : Config) (env : RpcEnv) (parseJson : String → Option JVal)
    (event : Event) (payload uid : JVal) (ps ids : List JVal) (wtr : List RpcCall)
    (hm : event.httpMethod = "POST")
    (hp : parseJson (eventBodyString event) = some payload)
    (hnn : nullish payload = false)
    (htok : truthy (jsGetT payload "token") = true)
    (hcfg : configOk cfg = true)
    (hauth : env (authCall cfg) = .ok uid)
    (huid : truthy uid = true)
    (hact : jsStrictEq (jsGetT payload "action") (.str "save") = true)
    (harr : jsGetT payload "passengers" = .arr ps)
    (hids : computeValidIds env (cfgUrl cfg) (cfgDb cfg) uid (cfgKey cfg)
        (jsGetT payload "token") = .ok ids)
    (hloop : saveLoop env (cfgUrl cfg) (cfgDb cfg) uid (cfgKey cfg) ids ps = (wtr, none)) :
    handler cfg env parseJson event =
      .ok (mkJson 200 (buildCorsHeaders event) (.obj [("status", .str "ok")]),
        authCall cfg ::
          saveSearchCall (cfgUrl cfg) (cfgDb cfg) uid (cfgKey cfg) (jsGetT payload "token") ::
          wtr) := by
  have hact2 : jsStrictEq (jsGetT payload "action") (.str "load") = false := by
    cases hh : jsGetT payload "action" <;> simp [jsStrictEq] at hact ⊢
    · rw [hh] at hact
      simp [jsStrictEq] at hact
      simp [hh, jsStrictEq, hact]
  unfold handler runSave
  rw [hm, hp]
  simp [hnn, htok, hcfg, hauth, huid, hact, hact2, harr, hids, hloop]

/-- Witness for C7: a save writing one field answers 200 even though the
upstream write returned false. -/
theorem claim_C7_witness :
    handler cfgA envA parseA (eventOf bodySaveName) =
      .ok (mkJson 200 (buildCorsHeaders (eventOf bodySaveName)) (.obj [("status", .str "ok")]),
        authCall cfgA ::
          saveSearchCall (cfgUrl cfgA) (cfgDb cfgA) (.num 7) (cfgKey cfgA) (.str "tok123") ::
          [RpcCall.write (cfgUrl cfgA) (cfgDb cfgA) (.num 7) (cfgKey cfgA) passengerModel
            (.num 1) [("x_passenger_first_name", .str "Ada")]]) :=
  claim_C7 cfgA envA parseA (eventOf bodySaveName) payloadSaveName (.num 7)
    [.obj [("id", .num 1), ("first_name", .str "Ada")]] [.num 1, .num 2]
    [RpcCall.write (cfgUrl cfgA) (cfgDb cfgA) (.num 7) (cfgKey cfgA) passengerModel
      (.num 1) [("x_passenger_first_name", .str "Ada")]]
    rfl rfl rfl rfl rfl rfl rfl rfl rfl rfl rfl

/-- Claim C8: an OPTIONS request short-circuits to a 204 success with the CORS
headers and an empty raw body before any body parsing, configuration check or
authentication: the result is the same for every configuration, oracle and
parser, and the RPC trace is empty. -/
theorem claim_C8 (cfg : Config) (env : RpcEnv) (parseJson : String → Option JVal)
    (event : Event) (h : event.httpMethod = "OPTIONS") :
    handler cfg env parseJson event =
      .ok ({ statusCode := 204, headers := buildCorsHeaders event, body := .raw "" }, []) := by
  unfold handler
  rw [if_pos h]

/-- Witness for C8: an OPTIONS request with a fully missing configuration. -/
theorem claim_C8_witness :
    handler cfgNone envA parseA eventOpt =
      .ok ({ statusCode := 204, headers := buildCorsHeaders eventOpt, body := .raw "" }, []) :=
  claim_C8 cfgNone envA parseA eventOpt rfl

/-- Claim C9: every response the handler returns, on every path, carries
exactly the CORS header set: Content-Type application/json, the allowed
headers and methods, and an Access-Control-Allow-Origin echoing the request
origin when it is on the allow-list and the default origin otherwise. -/
theorem claim_C9 (cfg : Config) (env : RpcEnv) (parseJson : String → Option JVal)
    (event : Event) (out : Response × List RpcCall)
    (h : handler cfg env parseJson event = .ok out) :
    out.1.headers = buildCorsHeaders event ∧
    lookupHeader out.1.headers "Content-Type" = some "application/json" ∧
    lookupHeader out.1.headers "Access-Control-Allow-Headers" = some "Content-Type" ∧
    lookupHeader out.1.headers "Access-Control-Allow-Methods" = some "POST, OPTIONS" ∧
    lookupHeader out.1.headers "Access-Control-Allow-Origin" =
      some (if eventOrigin event ∈ allowedOrigins then eventOrigin event
            else "https://www.adventurebound.travel") := by
  have hh := handler_headers cfg env parseJson event out h
  refine ⟨hh, ?_, ?_, ?_, ?_⟩ <;>
    simp [hh, buildCorsHeaders, lookupHeader, List.find?]

/-- Witness for C9: the headers of the concrete 404 load response. -/
theorem claim_C9_witness :
    (mkJson 404 (buildCorsHeaders (eventOf bodyLoad)) notFoundBody,
      [authCall cfgA,
       loadSearchCall (cfgUrl cfgA) (cfgDb cfgA) (.num 7) (cfgKey cfgA)
         (.str "tok123")]).1.headers = buildCorsHeaders (eventOf bodyLoad) ∧
    lookupHeader (mkJson 404 (buildCorsHeaders (eventOf bodyLoad)) notFoundBody).headers
      "Content-Type" = some "application/json" ∧
    lookupHeader (mkJson 404 (buildCorsHeaders (eventOf bodyLoad)) notFoundBody).headers
      "Access-Control-Allow-Headers" = some "Content-Type" ∧
    lookupHeader (mkJson 404 (buildCorsHeaders (eventOf bodyLoad)) notFoundBody).headers
      "Access-Control-Allow-Methods" = some "POST, OPTIONS" ∧
    lookupHeader (mkJson 404 (buildCorsHeaders (eventOf bodyLoad)) notFoundBody).headers
      "Access-Control-Allow-Origin" =
      some (if eventOrigin (eventOf bodyLoad) ∈ allowedOrigins then eventOrigin (eventOf bodyLoad)
            else "https://www.adventurebound.travel") :=
  claim_C9 cfgA envEmpty parseA (eventOf bodyLoad)
    (mkJson 404 (buildCorsHeaders (eventOf bodyLoad)) notFoundBody,
     [authCall cfgA,
      loadSearchCall (cfgUrl cfgA) (cfgDb cfgA) (.num 7) (cfgKey cfgA) (.str "tok123")]) rfl

/-- Claim C10: a POST request whose body is absent or the empty string is
treated as the empty JSON object: the handler answers 400 "Missing token"
(never the "Invalid JSON body" parse error), issuing no RPC call. -/
theorem claim_C10 (cfg : Config) (env : RpcEnv) (parseJson : String → Option JVal)
    (event : Event) (hm : event.httpMethod = "POST")
    (hb : event.body = none ∨ event.body = some "")
    (hp : parseJson "\x7b\x7d" = some (.obj [])) :
    handler cfg env parseJson event =
      .ok (mkJson 400 (buildCorsHeaders event) (.obj [("error", .str "Missing token")]), []) := by
  have hbs : eventBodyString event = "\x7b\x7d" := by
    rcases hb with h | h <;> simp [eventBodyString, h]
  unfold handler
  rw [hm, hbs, hp]
  simp [nullish, jsGetT, truthy]

/-- Witness for C10: a POST with no body answers 400 Missing token. -/
theorem claim_C10_witness :
    handler cfgA envA parseA eventNoBody =
      .ok (mkJson 400 (buildCorsHeaders eventNoBody) (.obj [("error", .str "Missing token")]), []) :=
  claim_C10 cfgA envA parseA eventNoBody rfl (Or.inl rfl) rfl

